import Mathlib

/-!
Formal model of the multi-carrier shipment tracking engine of the
fenxi-ecommerce repository.

Shallow embedding conventions:
* Timestamps are rationals, denoting milliseconds since the epoch
  (JavaScript `Date.getTime()` values).  JavaScript truncates a fractional
  time value to an integer millisecond count when a `Date` is built; the
  claims under study only concern equalities and orderings of timestamps,
  and every concrete input used below has integral timestamps, so the
  truncation step is not modelled.
* Statuses and carrier-native status codes are strings, exactly as in the
  JavaScript source (the 17Track adapter natively uses numeric codes and
  gets an `Int`).
* `Math.random()` draws are passed in explicitly as rational oracle values
  in `[0, 1)`.
* Fallible operations return `Except String` / carry an explicit
  `surfacedError` field; a thrown-and-caught JavaScript error is an
  `Except.error` value that the embedding of the `catch` block consumes.
* Mongoose documents are immutable records here; an update handler returns
  the new record state together with the side effects it performed on the
  order collaborator.
-/

/-- One carrier-reported tracking event, as stored in
`trackingHistory` (model `Shipping.js`, sub-schema of `trackingHistory`). -/
structure TrackingEvent where
  timestamp : ℚ
  description : String
  location : String
  statusCode : String
deriving DecidableEq

/-- One shipment-level status transition record, as stored in
`statusHistory` (model `Shipping.js`, `statusHistorySchema`). -/
structure StatusHistoryEntry where
  status : String
  timestamp : ℚ
  note : String
deriving DecidableEq

/-- The persisted shipment aggregate (model `backend/src/models/Shipping.js`).
The duplicated model in the unnamed source file names the foreign key
`orderId` and the raw payload `rawApiResponse`; both variants are carried
by the single fields `order` and `apiResponse` here.  `apiResponse` is
opaque diagnostic data and is modelled as an optional string. -/
structure Shipping where
  order : String
  carrier : String
  trackingNumber : String
  status : String
  statusHistory : List StatusHistoryEntry
  trackingHistory : List TrackingEvent
  shippedDate : ℚ
  estimatedDeliveryDate : Option ℚ
  deliveredDate : Option ℚ
  notes : String
  apiResponse : Option String
  lastUpdated : ℚ
deriving DecidableEq

/-- The slice of the order collaborator touched by the shipping
controllers: its status, the delivery flag set by the duplicated
controller, and the delivery timestamp. -/
structure Order where
  status : String
  isDelivered : Bool
  deliveredAt : Option ℚ
deriving DecidableEq

/-- A normalized adapter fetch result
(`tracker.getTracking(trackingNumber)` in `shippingService.js`). -/
structure TrackingResult where
  carrier : String
  trackingNumber : String
  status : String
  estimatedDeliveryDate : Option ℚ
  trackingHistory : List TrackingEvent
  rawData : String
deriving DecidableEq

/-- The canonical status taxonomy (the `status` enum of the model plus
`out_for_delivery`/`unknown` from the duplicated model). -/
def canonicalStatuses : List String :=
  ["pending", "in_transit", "out_for_delivery", "delivered", "exception",
   "returned", "unknown"]

/-- The `enum` of the canonical model's `status` path and of each
`statusHistory` entry's `status` path (`models/Shipping.js`): mongoose
validates every *modified* path against it when `shipping.save()` runs, so
persisting any other status (including the spec's `out_for_delivery` and
`unknown`) throws a `ValidationError`; pre-existing unmodified
subdocuments are not re-validated. -/
def validStatuses : List String :=
  ["pending", "in_transit", "delivered", "exception", "returned"]

/-- `String.prototype.toLowerCase()` for the ASCII carrier codes used by the
registry (simple per-character lowering). -/
def jsToLowerCase (s : String) : String := String.mk (s.data.map Char.toLower)

/-- JavaScript truthiness of an optional request-body string field, as
tested by `if (carrier)`, `if (status && ...)`, `if (statusCode)` and
`statusCode || 'unknown'`: an absent field and the empty string are both
falsy, every other string is truthy. -/
def jsTruthy : Option String → Option String
  | some s => if s = "" then none else some s
  | none => none

/-- The adapter instances `createShippingTracker` can return; the mock
keeps the carrier string it was constructed with
(`new MockTracker(carrier)`). -/
inductive Tracker where
  | dhl
  | ups
  | seventeenTrack
  | cainiao
  | yunExpress
  | mock (carrier : String)
deriving DecidableEq

/-- `createShippingTracker` (`shippingService.js`, lines 11-34): lower-cases
the carrier code and switches over the known codes and aliases, falling back
to `MockTracker`. -/
def createShippingTracker (carrier : String) : Tracker :=
  match jsToLowerCase carrier with
  | "dhl" => .dhl
  | "ups" => .ups
  | "17track" => .seventeenTrack
  | "17" => .seventeenTrack
  | "cainiao" => .cainiao
  | "cn" => .cainiao
  | "yunexpress" => .yunExpress
  | "yun" => .yunExpress
  | "yuntu" => .yunExpress
  | _ => .mock carrier

/-- The lower-cased codes recognized by the registry switch. -/
def knownCarrierCodes : List String :=
  ["dhl", "ups", "17track", "17", "cainiao", "cn", "yunexpress", "yun",
   "yuntu"]

/-- A value produced by the JavaScript expression
`statusMap[statusCode] || 'unknown'` on an object-literal status table:
either a string (an own table value, or the `'unknown'` fallback when the
lookup was `undefined`), or a member *inherited from `Object.prototype`* —
bracket lookup walks the prototype chain, so keys such as `"constructor"`
or `"toString"` yield a truthy function/object that `||` keeps, not a
status string. -/
inductive StatusMapResult where
  | status (s : String)
  | protoMember (name : String)
deriving DecidableEq

/-- The property names every object literal inherits from
`Object.prototype`; looking any of them up on a status table yields a
truthy non-string member. -/
def objectPrototypeKeys : List String :=
  ["constructor", "hasOwnProperty", "isPrototypeOf",
   "propertyIsEnumerable", "toLocaleString", "toString", "valueOf",
   "__proto__", "__defineGetter__", "__defineSetter__",
   "__lookupGetter__", "__lookupSetter__"]

/-- `own[key] || 'unknown'` for an object-literal table `own`: an own
property wins; otherwise an `Object.prototype` member is found (truthy, so
`||` keeps it); otherwise the lookup is `undefined` and `||` substitutes
`'unknown'`. -/
def jsObjectLookup (own : String → Option String)
    (key : String) : StatusMapResult :=
  match own key with
  | some v => .status v
  | none =>
    if key ∈ objectPrototypeKeys then .protoMember key
    else .status "unknown"

/-- The own properties of the DHL `statusMap` object literal
(`shippingService.js`, lines 131-137). -/
def dhlStatusTable (statusCode : String) : Option String :=
  match statusCode with
  | "pre-transit" => some "pending"
  | "transit" => some "in_transit"
  | "delivered" => some "delivered"
  | "failure" => some "exception"
  | "unknown" => some "unknown"
  | _ => none

/-- `DHLTracker.mapStatusCode` (`shippingService.js`, lines 129-140):
`statusMap[statusCode] || 'unknown'`. -/
def dhlMapStatusCode (statusCode : String) : StatusMapResult :=
  jsObjectLookup dhlStatusTable statusCode

/-- The keys of the DHL status-code table. -/
def dhlStatusCodeKeys : List String :=
  ["pre-transit", "transit", "delivered", "failure", "unknown"]

/-- The own properties of the UPS `statusMap` object literal
(`shippingService.js`, lines 340-346). -/
def upsStatusTable (statusCode : String) : Option String :=
  match statusCode with
  | "I" => some "pending"
  | "P" => some "pending"
  | "O" => some "in_transit"
  | "D" => some "delivered"
  | "X" => some "exception"
  | _ => none

/-- `UPSTracker.mapStatusCode` (`shippingService.js`, lines 338-349). -/
def upsMapStatusCode (statusCode : String) : StatusMapResult :=
  jsObjectLookup upsStatusTable statusCode

/-- The keys of the UPS status-code table. -/
def upsStatusCodeKeys : List String := ["I", "P", "O", "D", "X"]

/-- `SeventeenTrackTracker.mapStatusCode` (`shippingService.js`, lines
552-560); 17Track natively uses numeric codes, compared with `===`, so no
object lookup (and no prototype chain) is involved. -/
def seventeenMapStatusCode (statusCode : Int) : String :=
  if statusCode = 0 then "pending"
  else if statusCode = 10 then "in_transit"
  else if statusCode = 30 then "exception"
  else if statusCode = 40 then "delivered"
  else "unknown"

/-- The numeric codes the 17Track table maps. -/
def seventeenStatusCodeKeys : List Int := [0, 10, 30, 40]

/-- The own properties of the Cainiao `statusMap` object literal
(`shippingService.js`, lines 751-757). -/
def cainiaoStatusTable (statusCode : String) : Option String :=
  match statusCode with
  | "CREATED" => some "pending"
  | "PICKUP" => some "pending"
  | "TRANSIT" => some "in_transit"
  | "DELIVERED" => some "delivered"
  | "EXCEPTION" => some "exception"
  | _ => none

/-- `CainiaoTracker.mapStatusCode` (`shippingService.js`, lines 749-760). -/
def cainiaoMapStatusCode (statusCode : String) : StatusMapResult :=
  jsObjectLookup cainiaoStatusTable statusCode

/-- The keys of the Cainiao status-code table. -/
def cainiaoStatusCodeKeys : List String :=
  ["CREATED", "PICKUP", "TRANSIT", "DELIVERED", "EXCEPTION"]

/-- The own properties of the YunExpress `statusMap` object literal
(`shippingService.js`, lines 960-965). -/
def yunStatusTable (statusCode : String) : Option String :=
  match statusCode with
  | "INFO_RECEIVED" => some "pending"
  | "IN_TRANSIT" => some "in_transit"
  | "DELIVERED" => some "delivered"
  | "EXCEPTION" => some "exception"
  | _ => none

/-- `YunExpressTracker.mapStatusCode` (`shippingService.js`, lines
958-968). -/
def yunMapStatusCode (statusCode : String) : StatusMapResult :=
  jsObjectLookup yunStatusTable statusCode

/-- The keys of the YunExpress status-code table. -/
def yunStatusCodeKeys : List String :=
  ["INFO_RECEIVED", "IN_TRANSIT", "DELIVERED", "EXCEPTION"]

/-- `tracker.mapStatusCode(statusCode)` as invoked by the controller
`addTrackingEvent` with a *string* status code from the request body.
For the 17Track tracker, `statusCode === 0` etc. compare a string against a
number and are always false, so the string call yields `'unknown'`.
`MockTracker` defines no `mapStatusCode` method at all, so the call raises
`TypeError: tracker.mapStatusCode is not a function`; this is modelled as
`none`. -/
def trackerMapStatusCode : Tracker → String → Option StatusMapResult
  | .dhl, c => some (dhlMapStatusCode c)
  | .ups, c => some (upsMapStatusCode c)
  | .seventeenTrack, _ => some (.status "unknown")
  | .cainiao, c => some (cainiaoMapStatusCode c)
  | .yunExpress, c => some (yunMapStatusCode c)
  | .mock _, _ => none

/-- The descending-timestamp ordering used by every
`sort((a, b) => b.timestamp - a.timestamp)` call in `shippingService.js`. -/
def timeDescRel (x y : TrackingEvent) : Prop := y.timestamp ≤ x.timestamp

instance : DecidableRel timeDescRel := fun x y =>
  inferInstanceAs (Decidable (y.timestamp ≤ x.timestamp))

instance : IsTotal TrackingEvent timeDescRel :=
  ⟨fun a b => le_total b.timestamp a.timestamp⟩

instance : IsTrans TrackingEvent timeDescRel :=
  ⟨fun _ _ _ hab hbc => le_trans hbc hab⟩

/-- `trackingHistory.sort((a, b) => b.timestamp - a.timestamp)`: the
ECMAScript 2019 `Array.prototype.sort` is required to be stable, and a
stable sort's output is uniquely determined by the comparator and the
input, so the stable insertion sort below is extensionally the source's
sort. -/
def jsSortByTimestampDesc (l : List TrackingEvent) : List TrackingEvent :=
  List.insertionSort timeDescRel l

/-- The oracle of `Math.random()` draws consumed by one
`generateMockResponse` call: the history-count draw, the per-index time
draw, the branch draw for the newest record, the per-index description and
location draws for middle records, and the estimated-delivery draw. -/
structure MockDraws where
  count : ℚ
  time : ℕ → ℚ
  top : ℚ
  desc : ℕ → ℚ
  loc : ℕ → ℚ
  est : ℚ

/-- Draws produced by `Math.random()` lie in `[0, 1)`. -/
def MockDraws.Valid (d : MockDraws) : Prop :=
  0 ≤ d.count ∧ d.count < 1 ∧ 0 ≤ d.top ∧ d.top < 1 ∧ 0 ≤ d.est ∧
  d.est < 1 ∧ (∀ i, 0 ≤ d.time i ∧ d.time i < 1) ∧
  (∀ i, 0 ≤ d.desc i ∧ d.desc i < 1) ∧ (∀ i, 0 ≤ d.loc i ∧ d.loc i < 1)

/-- Number of mock history records: `Math.floor(Math.random() * 6) + 3`. -/
def mockHistoryCount (d : MockDraws) : ℕ := (⌊d.count * 6⌋).toNat + 3

/-- One day in milliseconds. -/
def dayMs : ℚ := 24 * 60 * 60 * 1000

/-- The i-th generated mock tracking record (loop body of
`generateMockResponse`): `daysAgo = i * (Math.random() + 1)`, newest record
(`i === 0`) delivered when the branch draw exceeds `0.7`, oldest record
pending, middle records in transit with a drawn description and
location. -/
def mockEvent (descs locs : List String) (now : ℚ) (count : ℕ)
    (d : MockDraws) (i : ℕ) : TrackingEvent :=
  let timestamp : ℚ := now - (i : ℚ) * (d.time i + 1) * dayMs
  if i = 0 then
    if d.top > 7/10 then
      ⟨timestamp, "包裹已送达", "收件人地址", "delivered"⟩
    else
      ⟨timestamp, "包裹正在派送中", "本地配送中心", "in_transit"⟩
  else if i = count - 1 then
    ⟨timestamp, "物流信息已创建", "发件人仓库", "pending"⟩
  else
    ⟨timestamp, descs.getD (⌊d.desc i * 6⌋).toNat "",
      locs.getD (⌊d.loc i * 10⌋).toNat "", "in_transit"⟩

/-- The overall status of a mock response:
`trackingHistory[0].statusCode` after the descending sort (the history is
never empty, its length is at least 3). -/
def mockOverallStatus : List TrackingEvent → String
  | [] => "unknown"
  | e :: _ => e.statusCode

/-- `generateMockResponse(trackingNumber)`, shared shape of the five
generators in `shippingService.js` (they differ only in the middle-record
description/location pools, in the carrier tag, and in whether an
estimated delivery date is produced): generate `3`–`8` records, sort them
by timestamp descending, take the newest record's code as the overall
status, and, when `hasEstimate` is set and the status is not `delivered`,
estimate delivery `Math.random() * 5 + 1` days out. -/
def generateMockResponse (carrier : String) (descs locs : List String)
    (hasEstimate : Bool) (trackingNumber : String) (now : ℚ)
    (d : MockDraws) : TrackingResult :=
  let count := mockHistoryCount d
  let history := (List.range count).map (mockEvent descs locs now count d)
  let sorted := jsSortByTimestampDesc history
  let currentStatus := mockOverallStatus sorted
  let estimatedDeliveryDate : Option ℚ :=
    if hasEstimate && currentStatus ≠ "delivered" then
      some (now + (d.est * 5 + 1) * dayMs)
    else none
  { carrier := carrier
    trackingNumber := trackingNumber
    status := currentStatus
    estimatedDeliveryDate := estimatedDeliveryDate
    trackingHistory := sorted
    rawData := "mock" }

/-- Middle-record description pool of the generic/DHL/17Track/Mock
generators. -/
def genericTransitDescs : List String :=
  ["包裹已到达分拣中心", "包裹已离开分拣中心", "包裹正在运输中", "包裹已清关",
   "包裹已交给承运商", "包裹已到达目的国家/地区"]

/-- Location pool of the DHL/UPS/17Track/Mock generators. -/
def genericLocations : List String :=
  ["纽约", "洛杉矶", "芝加哥", "迈阿密", "伦敦", "巴黎", "柏林", "北京",
   "上海", "东京"]

/-- `MockTracker.getTracking` / `MockTracker.generateMockResponse`
(`shippingService.js`, lines 1087-1178): never fails, produces the generic
synthetic response for the carrier the mock was constructed with. -/
def mockGetTracking (carrier : String) (trackingNumber : String) (now : ℚ)
    (d : MockDraws) : TrackingResult :=
  generateMockResponse carrier genericTransitDescs genericLocations true
    trackingNumber now d

/-- `DHLTracker.generateMockResponse` (`shippingService.js`, lines
163-242). -/
def dhlGenerateMockResponse (trackingNumber : String) (now : ℚ)
    (d : MockDraws) : TrackingResult :=
  generateMockResponse "dhl" genericTransitDescs genericLocations true
    trackingNumber now d

/-- Result of one controller operation on a shipment: the shipment state,
the (possibly updated) order collaborator state, and whether `order.save()`
was invoked. -/
structure RefreshOutcome where
  shipping : Shipping
  order : Option Order
  orderSaved : Bool
deriving DecidableEq

/-- The first-delivery side-effect block, repeated verbatim in
`refreshTrackingInfoInternal`, `updateShipping` and `addTrackingEvent`
(`shippingController.js`, lines 100-110, 211-221 and 267-277): on a first
transition into `delivered` (`!shipping.deliveredDate`), stamp
`deliveredDate = now` and, when the order exists and is not already
delivered, mark it delivered and save it. -/
def propagateDelivered (st : String) (sh : Shipping) (ord : Option Order)
    (now : ℚ) : Shipping × Option Order × Bool :=
  if st = "delivered" ∧ sh.deliveredDate = none then
    let shD := { sh with deliveredDate := some now }
    match ord with
    | some o =>
      if o.status ≠ "delivered" then
        (shD, some { o with status := "delivered",
                            deliveredAt := some now }, true)
      else (shD, some o, false)
    | none => (shD, none, false)
  else (sh, ord, false)

/-- `refreshTrackingInfoInternal` (`shippingController.js`, lines 75-124).
The adapter call outcome is the `fetch` argument.  On success: overwrite
`status`, `trackingHistory` and `lastUpdated` (`trackingInfo.apiResponse`
is undefined in the source — the trackers return `rawData` — so the
assignment clears `apiResponse`); append a status-history entry when the
fetched status differs from the *last recorded* status-history entry (or
the history is empty); on a first transition into `delivered`
(`!shipping.deliveredDate`), set `deliveredDate` and mark the order
delivered unless it already is; adopt the fetched estimated delivery date
only when one was provided.  On failure: the catch block logs and returns
the untouched shipment (`不抛出错误，只记录日志`).  The value returned (and
serialized into the response) is the in-memory document: when the fetched
status lies outside the model's five-value enum the trailing
`shipping.save()` throws a `ValidationError` that the same catch swallows,
so those mutations are visible in the response but never persisted — this
definition models the returned document. -/
def refreshTrackingInfoInternal (sh : Shipping) (ord : Option Order)
    (fetch : Except String TrackingResult) (now : ℚ) : RefreshOutcome :=
  match fetch with
  | .error _ => ⟨sh, ord, false⟩
  | .ok t =>
    let sh1 := { sh with status := t.status,
                         trackingHistory := t.trackingHistory,
                         apiResponse := none,
                         lastUpdated := now }
    let lastStatus : Option String :=
      match sh.statusHistory.getLast? with
      | some entry => some entry.status
      | none => none
    let sh2 :=
      if lastStatus ≠ some t.status then
        { sh1 with statusHistory :=
            sh1.statusHistory ++ [⟨t.status, now, "系统自动更新"⟩] }
      else sh1
    let (sh3, ord3, saved) := propagateDelivered t.status sh2 ord now
    let sh4 :=
      match t.estimatedDeliveryDate with
      | some d => { sh3 with estimatedDeliveryDate := some d }
      | none => sh3
    ⟨sh4, ord3, saved⟩

/-- Result of an HTTP-facing handler: the state outcome, the HTTP status
code of the response, and the error surfaced to the caller, if any. -/
structure HandlerOutcome where
  shipping : Shipping
  order : Option Order
  orderSaved : Bool
  httpStatus : ℕ
  surfacedError : Option String
deriving DecidableEq

/-- The explicit manual-refresh endpoint `refreshTrackingInfo`
(`shippingController.js`, lines 57-70): it calls
`refreshTrackingInfoInternal`, whose internal catch swallows every adapter
failure, and always answers `200` with the (possibly unchanged) shipment —
no error reaches the caller. -/
def refreshTrackingInfo (sh : Shipping) (ord : Option Order)
    (fetch : Except String TrackingResult) (now : ℚ) : HandlerOutcome :=
  let r := refreshTrackingInfoInternal sh ord fetch now
  ⟨r.shipping, r.order, r.orderSaved, 200, none⟩

/-- Staleness threshold: 6 hours in milliseconds. -/
def stalenessThresholdMs : ℚ := 6 * 60 * 60 * 1000

/-- The tracking read endpoint `getTrackingInfo` (`shippingController.js`,
lines 33-50): refresh first when
`shipping.lastUpdated < new Date(Date.now() - 6 * 60 * 60 * 1000)`,
otherwise serve the cached record untouched. -/
def getTrackingInfo (sh : Shipping) (ord : Option Order)
    (fetch : Except String TrackingResult) (now : ℚ) : RefreshOutcome :=
  if sh.lastUpdated < now - stalenessThresholdMs then
    refreshTrackingInfoInternal sh ord fetch now
  else ⟨sh, ord, false⟩

/-- `updateShipping` (`shippingController.js`, lines 185-227): apply the
truthy-provided field edits; when a status is provided and differs from
the stored one, set it, append a status-history entry (note
`req.body.statusNote || '管理员手动更新'`), and on a first transition into
`delivered` set `deliveredDate` and mark the order delivered unless it
already is.  `shipping.save()` then validates the modified `status` path
and the newly pushed status-history entry against the model's five-value
enum: a requested status outside `validStatuses` makes the save throw a
`ValidationError` — the request fails with 500 and *no* field edit or
history entry is persisted (a requested out-of-enum status is never
`delivered`, so the order side effect cannot have fired on that path).
On success the model's pre-save hook stamps `lastUpdated`. -/
def updateShipping (sh : Shipping) (ord : Option Order)
    (carrierArg trackingNumberArg statusArg notesArg statusNoteArg :
      Option String) (now : ℚ) : Except String RefreshOutcome :=
  let sh1 := match jsTruthy carrierArg with
    | some c => { sh with carrier := c }
    | none => sh
  let sh2 := match jsTruthy trackingNumberArg with
    | some tn => { sh1 with trackingNumber := tn }
    | none => sh1
  let sh3 := match jsTruthy notesArg with
    | some n => { sh2 with notes := n }
    | none => sh2
  match jsTruthy statusArg with
  | some st =>
    if st ≠ sh3.status then
      if st ∈ validStatuses then
        let shN : Shipping := { sh3 with status := st, statusHistory := sh3.statusHistory ++ [(⟨st, now, (jsTruthy statusNoteArg).getD "管理员手动更新"⟩ : StatusHistoryEntry)] }
        let (sh4, ord4, saved) := propagateDelivered st shN ord now
        .ok ⟨{ sh4 with lastUpdated := now }, ord4, saved⟩
      else .error "ValidationError: status is not a valid enum value"
    else .ok ⟨{ sh3 with lastUpdated := now }, ord, false⟩
  | none => .ok ⟨{ sh3 with lastUpdated := now }, ord, false⟩

/-- `addTrackingEvent` (`shippingController.js`, lines 234-284): push the
new event (stamped with the current time, raw `statusCode || 'unknown'`)
at the *end* of `trackingHistory` without re-sorting; when a status code
was provided, map it through the resolved tracker — a `TypeError` when the
tracker is the mock, which lacks `mapStatusCode` — and when the mapped
status is truthy and differs from the stored one, append a status-history
entry and run the same first-delivery block as the other paths.
`shipping.save()` then validates the modified paths against the model's
five-value enum: a mapped status of `'unknown'` (or any out-of-enum
value), and likewise an `Object.prototype` member returned by the lookup
(truthy and `!==` any stored string, so the branch is taken but a
non-string reaches the `status` path), makes the save throw — the request
fails with 500 and *nothing*, including the pushed tracking event, is
persisted.  On success the pre-save hook stamps `lastUpdated`. -/
def addTrackingEvent (sh : Shipping) (ord : Option Order)
    (description : String) (locationArg statusCodeArg : Option String)
    (now : ℚ) : Except String RefreshOutcome :=
  let sh1 : Shipping := { sh with trackingHistory := sh.trackingHistory ++
    [(⟨now, description, locationArg.getD "",
      (jsTruthy statusCodeArg).getD "unknown"⟩ : TrackingEvent)] }
  match jsTruthy statusCodeArg with
  | none => .ok ⟨{ sh1 with lastUpdated := now }, ord, false⟩
  | some code =>
    let tracker := createShippingTracker sh1.carrier
    match trackerMapStatusCode tracker code with
    | none => .error "TypeError: tracker.mapStatusCode is not a function"
    | some (.protoMember _) =>
      .error "ValidationError: status is not a valid enum value"
    | some (.status st) =>
      if st ≠ sh1.status then
        if st ∈ validStatuses then
          let shN : Shipping := { sh1 with status := st, statusHistory := sh1.statusHistory ++ [(⟨st, now, "根据新添加的跟踪记录更新"⟩ : StatusHistoryEntry)] }
          let (sh4, ord4, saved) := propagateDelivered st shN ord now
          .ok ⟨{ sh4 with lastUpdated := now }, ord4, saved⟩
        else .error "ValidationError: status is not a valid enum value"
      else .ok ⟨{ sh1 with lastUpdated := now }, ord, false⟩

/-- `refreshShippingTracking`, first duplicated controller in the unnamed
source file (lines 68-117): on success it overwrites `status`,
`trackingHistory`, `estimatedDeliveryDate` (unconditionally, even with
null), `lastUpdated` and the raw payload, touches no status history, and
when the fetched status is `delivered` it *unconditionally* re-assigns
`deliveredDate` and re-saves any found order as delivered (no
`!shipping.deliveredDate` and no `order.status` guard).  On failure the
outer catch answers `500` with the error message. -/
def refreshShippingTracking (sh : Shipping) (ord : Option Order)
    (fetch : Except String TrackingResult) (now : ℚ) : HandlerOutcome :=
  match fetch with
  | .error e => ⟨sh, ord, false, 500, some e⟩
  | .ok t =>
    let sh1 := { sh with status := t.status,
                         trackingHistory := t.trackingHistory,
                         estimatedDeliveryDate := t.estimatedDeliveryDate,
                         lastUpdated := now,
                         apiResponse := some t.rawData }
    if t.status = "delivered" then
      let sh2 := { sh1 with deliveredDate := some now }
      match ord with
      | some o => ⟨sh2, some { o with status := "delivered",
                                      isDelivered := true,
                                      deliveredAt := some now }, true,
                   200, none⟩
      | none => ⟨sh2, none, false, 200, none⟩
    else ⟨sh1, ord, false, 200, none⟩

/-- `updateShipping`, first duplicated controller in the unnamed source
file (lines 183-237): it assigns `shipping.status = status` *before* the
`status !== shipping.status` comparison, so the guarded
`trackingHistory.unshift` is dead code and `statusHistory` is never
touched; when the requested status is `delivered` it unconditionally
re-assigns `deliveredDate` (after the save) and re-saves any found order
as delivered. -/
def updateShippingV0 (sh : Shipping) (ord : Option Order)
    (carrierArg trackingNumberArg statusArg notesArg : Option String)
    (now : ℚ) : RefreshOutcome :=
  let sh1 := match carrierArg with
    | some c => { sh with carrier := c }
    | none => sh
  let sh2 := match trackingNumberArg with
    | some tn => { sh1 with trackingNumber := tn }
    | none => sh1
  let sh3 := match statusArg with
    | some st => { sh2 with status := st }
    | none => sh2
  let sh4 := match notesArg with
    | some n => { sh3 with notes := n }
    | none => sh3
  let sh5 := match statusArg with
    | some st =>
      if st ≠ sh4.status then
        { sh4 with trackingHistory :=
            ⟨now, "物流状态更新为: " ++ st, "", st⟩ :: sh4.trackingHistory }
      else sh4
    | none => sh4
  let sh6 := { sh5 with lastUpdated := now }
  if statusArg = some "delivered" then
    let sh7 := { sh6 with deliveredDate := some now }
    match ord with
    | some o => ⟨sh7, some { o with status := "delivered",
                                    isDelivered := true,
                                    deliveredAt := some now }, true⟩
    | none => ⟨sh7, none, false⟩
  else ⟨sh6, ord, false⟩

/-- `trackingHistory` is sorted by timestamp strictly descending: every
event's timestamp is strictly greater than the next one's. -/
def sortedStrictDescB : List TrackingEvent → Bool
  | [] => true
  | [_] => true
  | a :: b :: l => decide (b.timestamp < a.timestamp) &&
      sortedStrictDescB (b :: l)

/-- `trackingHistory` is sorted by timestamp descending, ties allowed. -/
def sortedDescB : List TrackingEvent → Bool
  | [] => true
  | [_] => true
  | a :: b :: l => decide (b.timestamp ≤ a.timestamp) && sortedDescB (b :: l)

/-- One administrative or automated operation on a shipment through the
canonical controller (`shippingController.js`): an automated refresh with
a given adapter outcome, a manual status edit (`updateShipping` with only
the status field), or a manual tracking-event insertion
(`addTrackingEvent`). -/
inductive AdminOp where
  | refresh (fetch : Except String TrackingResult)
  | statusEdit (st : String) (noteArg : Option String)
  | insertEvent (description : String) (locationArg codeArg : Option String)

/-- The system state threaded through a sequence of operations: the
shipment, the order collaborator state, and how many times `order.save()`
has been performed (each such save is the mark-order-delivered update). -/
structure SysState where
  shipping : Shipping
  order : Option Order
  orderSaves : ℕ
deriving DecidableEq

/-- Run one timed operation through the corresponding canonical controller
handler; a thrown `TypeError` in `addTrackingEvent`, or a save-time
`ValidationError` in either manual handler, aborts the request with
nothing persisted, leaving the state unchanged. -/
def stepOp (s : SysState) (op : AdminOp) (now : ℚ) : SysState :=
  match op with
  | .refresh fetch =>
    let r := refreshTrackingInfoInternal s.shipping s.order fetch now
    ⟨r.shipping, r.order, s.orderSaves + (if r.orderSaved then 1 else 0)⟩
  | .statusEdit st noteArg =>
    match updateShipping s.shipping s.order none none (some st) none
      noteArg now with
    | .ok r =>
      ⟨r.shipping, r.order, s.orderSaves + (if r.orderSaved then 1 else 0)⟩
    | .error _ => s
  | .insertEvent description locationArg codeArg =>
    match addTrackingEvent s.shipping s.order description locationArg
      codeArg now with
    | .ok r =>
      ⟨r.shipping, r.order, s.orderSaves + (if r.orderSaved then 1 else 0)⟩
    | .error _ => s

/-- Run a list of timed operations in order. -/
def runOps (s : SysState) : List (AdminOp × ℚ) → SysState
  | [] => s
  | (op, now) :: rest => runOps (stepOp s op now) rest

/-- The operation observes/reports the `delivered` status: the refresh's
adapter fetch succeeded with status `delivered`, the manual edit requested
`delivered`, or the inserted event carries a truthy code that the
shipment's resolved tracker maps to `delivered`. -/
def reportsDelivered (carrier : String) : AdminOp → Prop
  | .refresh fetch => ∃ t, fetch = .ok t ∧ t.status = "delivered"
  | .statusEdit st _ => st = "delivered"
  | .insertEvent _ _ codeArg => ∃ c, codeArg = some c ∧ c ≠ "" ∧
      trackerMapStatusCode (createShippingTracker carrier) c =
        some (.status "delivered")

/-- A freshly created shipment as `addShipping` produces it
(`shippingController.js`, lines 149-162): status `pending` with the single
creation status-history entry. -/
def sampleShipping : Shipping :=
  { order := "order1"
    carrier := "dhl"
    trackingNumber := "DHL123"
    status := "pending"
    statusHistory := [⟨"pending", 0, "物流信息已创建"⟩]
    trackingHistory := []
    shippedDate := 0
    estimatedDeliveryDate := none
    deliveredDate := none
    notes := ""
    apiResponse := none
    lastUpdated := 0 }

/-- A concrete adapter result reporting `delivered`. -/
def trDelivered : TrackingResult :=
  { carrier := "dhl"
    trackingNumber := "DHL123"
    status := "delivered"
    estimatedDeliveryDate := none
    trackingHistory := []
    rawData := "raw" }

/-- A concrete adapter result reporting `in_transit` with no delivery
estimate. -/
def trNoEstimate : TrackingResult :=
  { carrier := "dhl"
    trackingNumber := "DHL123"
    status := "in_transit"
    estimatedDeliveryDate := none
    trackingHistory := []
    rawData := "raw" }

/-- A concrete order that has been shipped but not delivered. -/
def sampleOrder : Order := ⟨"shipped", false, none⟩

/-- Mock draw oracle: every draw is `0` (newest record in transit). -/
def drawsA : MockDraws := ⟨0, fun _ => 0, 0, fun _ => 0, fun _ => 0, 0⟩

/-- Mock draw oracle: branch draw `4/5` (newest record delivered),
everything else `0`. -/
def drawsB : MockDraws := ⟨0, fun _ => 0, 4/5, fun _ => 0, fun _ => 0, 0⟩

/-- Mock draw oracle producing a timestamp tie: count draw `1/6` gives four
records, the time draw of record 2 is `1/2`, so records 2 and 3 both land
`3` days before `now`. -/
def drawsTie : MockDraws :=
  ⟨1/6, fun i => if i = 2 then 1/2 else 0, 0, fun _ => 0, fun _ => 0, 0⟩

/-- Invariant of a shipment that has completed its first transition into
`delivered` at time `d0`, threaded through subsequent delivered-reporting
operations: the stored status is `delivered`, the delivery date is pinned
at `d0`, the last status-history entry records `delivered`, a present
order is already marked delivered, and the carrier is unchanged. -/
def DeliveredStable (carrier : String) (d0 : ℚ) (s : SysState) : Prop :=
  s.shipping.carrier = carrier ∧
  s.shipping.status = "delivered" ∧
  s.shipping.deliveredDate = some d0 ∧
  (∃ e, s.shipping.statusHistory.getLast? = some e ∧
    e.status = "delivered") ∧
  (∀ o, s.order = some o → o.status = "delivered")


theorem propagateDelivered_shipping_eq (st : String) (sh : Shipping)
    (ord : Option Order) (now : ℚ) :
    (propagateDelivered st sh ord now).1 =
      { sh with deliveredDate :=
          (propagateDelivered st sh ord now).1.deliveredDate } := by
  unfold propagateDelivered
  split
  · rcases ord with _ | o
    · rfl
    · rcases eq_or_ne o.status "delivered" with h | h <;> simp [h]
  · rfl

theorem propagateDelivered_statusHistory (st : String) (sh : Shipping)
    (ord : Option Order) (now : ℚ) :
    (propagateDelivered st sh ord now).1.statusHistory = sh.statusHistory :=
  by rw [propagateDelivered_shipping_eq]

theorem propagateDelivered_trackingHistory (st : String) (sh : Shipping)
    (ord : Option Order) (now : ℚ) :
    (propagateDelivered st sh ord now).1.trackingHistory =
      sh.trackingHistory :=
  by rw [propagateDelivered_shipping_eq]

theorem propagateDelivered_estimated (st : String) (sh : Shipping)
    (ord : Option Order) (now : ℚ) :
    (propagateDelivered st sh ord now).1.estimatedDeliveryDate =
      sh.estimatedDeliveryDate :=
  by rw [propagateDelivered_shipping_eq]

theorem propagateDelivered_carrier (st : String) (sh : Shipping)
    (ord : Option Order) (now : ℚ) :
    (propagateDelivered st sh ord now).1.carrier = sh.carrier :=
  by rw [propagateDelivered_shipping_eq]

theorem propagateDelivered_status (st : String) (sh : Shipping)
    (ord : Option Order) (now : ℚ) :
    (propagateDelivered st sh ord now).1.status = sh.status :=
  by rw [propagateDelivered_shipping_eq]

theorem propagateDelivered_of_date_set (st : String) (sh : Shipping)
    (ord : Option Order) (now : ℚ) (h : sh.deliveredDate ≠ none) :
    propagateDelivered st sh ord now = (sh, ord, false) := by
  unfold propagateDelivered
  rw [if_neg]
  simp [h]

theorem propagateDelivered_of_ne (st : String) (sh : Shipping)
    (ord : Option Order) (now : ℚ) (h : st ≠ "delivered") :
    propagateDelivered st sh ord now = (sh, ord, false) := by
  unfold propagateDelivered
  rw [if_neg]
  simp [h]

theorem propagateDelivered_first (st : String) (sh : Shipping) (o : Order)
    (now : ℚ) (h1 : st = "delivered") (h2 : sh.deliveredDate = none)
    (h3 : o.status ≠ "delivered") :
    propagateDelivered st sh (some o) now =
      ({ sh with deliveredDate := some now },
       some { o with status := "delivered", deliveredAt := some now },
       true) := by
  unfold propagateDelivered
  rw [if_pos ⟨h1, h2⟩]
  simp [h3]

theorem refreshInternal_error_eq (sh : Shipping) (ord : Option Order)
    (e : String) (now : ℚ) :
    refreshTrackingInfoInternal sh ord (.error e) now = ⟨sh, ord, false⟩ :=
  rfl

theorem refreshInternal_ok_trackingHistory (sh : Shipping)
    (ord : Option Order) (t : TrackingResult) (now : ℚ) :
    (refreshTrackingInfoInternal sh ord (.ok t) now).shipping.trackingHistory
      = t.trackingHistory := by
  unfold refreshTrackingInfoInternal
  dsimp only
  rcases h4 : t.estimatedDeliveryDate with _ | d <;>
    dsimp only <;>
    rw [propagateDelivered_trackingHistory] <;>
    split <;> rfl

theorem refreshInternal_ok_estimated_none (sh : Shipping)
    (ord : Option Order) (t : TrackingResult) (now : ℚ)
    (h : t.estimatedDeliveryDate = none) :
    (refreshTrackingInfoInternal sh ord
      (.ok t) now).shipping.estimatedDeliveryDate
      = sh.estimatedDeliveryDate := by
  unfold refreshTrackingInfoInternal
  dsimp only
  rw [h]
  dsimp only
  rw [propagateDelivered_estimated]
  split <;> rfl

theorem refreshInternal_ok_estimated_some (sh : Shipping)
    (ord : Option Order) (t : TrackingResult) (now d : ℚ)
    (h : t.estimatedDeliveryDate = some d) :
    (refreshTrackingInfoInternal sh ord
      (.ok t) now).shipping.estimatedDeliveryDate = some d := by
  unfold refreshTrackingInfoInternal
  dsimp only
  rw [h]

theorem refreshInternal_ok_statusHistory (sh : Shipping)
    (ord : Option Order) (t : TrackingResult) (now : ℚ) :
    (refreshTrackingInfoInternal sh ord (.ok t) now).shipping.statusHistory
      = if (match sh.statusHistory.getLast? with
            | some entry => some entry.status
            | none => none) ≠ some t.status
        then sh.statusHistory ++ [⟨t.status, now, "系统自动更新"⟩]
        else sh.statusHistory := by
  unfold refreshTrackingInfoInternal
  dsimp only
  rcases h4 : t.estimatedDeliveryDate with _ | d <;>
    dsimp only <;>
    rw [propagateDelivered_statusHistory] <;>
    split <;> rfl

/-- C2 (counterexample): on an explicit manual refresh whose adapter fetch
fails with `CarrierUnavailable`, the canonical `refreshTrackingInfo`
endpoint answers HTTP 200 and surfaces no error to the caller — the
failure is swallowed by the internal catch, contradicting the claim that
the error is surfaced rather than swallowed. -/
theorem c2_counterexample :
    (refreshTrackingInfo sampleShipping none
      (.error "CarrierUnavailable") 999).surfacedError = none ∧
    (refreshTrackingInfo sampleShipping none
      (.error "CarrierUnavailable") 999).httpStatus = 200 :=
  ⟨rfl, rfl⟩

/-- C2 (amended): when the adapter fetch of an explicit manual refresh
fails, every field of the shipment is left unmodified, no status-history
entry is appended and no order update is performed — but the error is
logged and swallowed, and the caller receives HTTP 200 with the unchanged
shipment instead of the error. -/
theorem c2_manual_refresh_failure (sh : Shipping) (ord : Option Order)
    (e : String) (now : ℚ) :
    refreshTrackingInfo sh ord (.error e) now =
      ⟨sh, ord, false, 200, none⟩ :=
  rfl

/-- C4: resolving any carrier string whose lower-casing is outside the
known-carrier table yields the Mock fallback tracker (and resolution is a
total function — it never raises); any string lower-casing to a known code
or alias resolves to that carrier's tracker. -/
theorem c4_registry_resolution (s : String) :
    (jsToLowerCase s ∉ knownCarrierCodes →
      createShippingTracker s = .mock s) ∧
    (jsToLowerCase s = "dhl" → createShippingTracker s = .dhl) ∧
    (jsToLowerCase s = "ups" → createShippingTracker s = .ups) ∧
    (jsToLowerCase s = "17track" ∨ jsToLowerCase s = "17" →
      createShippingTracker s = .seventeenTrack) ∧
    (jsToLowerCase s = "cainiao" ∨ jsToLowerCase s = "cn" →
      createShippingTracker s = .cainiao) ∧
    (jsToLowerCase s = "yunexpress" ∨ jsToLowerCase s = "yun" ∨
        jsToLowerCase s = "yuntu" →
      createShippingTracker s = .yunExpress) := by
  refine ⟨?_, ?_, ?_, ?_, ?_, ?_⟩
  · intro h
    unfold createShippingTracker
    split
    all_goals first
      | rfl
      | (exfalso; apply h; simp [knownCarrierCodes, *])
  · intro h
    unfold createShippingTracker
    rw [h]
    rfl
  · intro h
    unfold createShippingTracker
    rw [h]
    rfl
  · rintro (h | h) <;> (unfold createShippingTracker; rw [h]; rfl)
  · rintro (h | h) <;> (unfold createShippingTracker; rw [h]; rfl)
  · rintro (h | h | h) <;> (unfold createShippingTracker; rw [h]; rfl)

/-- C4 (witness): concrete resolutions — an unknown carrier string falls
back to the mock, known codes and aliases resolve case-insensitively. -/
theorem c4_witness :
    createShippingTracker "UnknownCarrierXYZ" = .mock "UnknownCarrierXYZ" ∧
    createShippingTracker "DHL" = .dhl ∧
    createShippingTracker "Cn" = .cainiao ∧
    createShippingTracker "YUNTU" = .yunExpress ∧
    createShippingTracker "17" = .seventeenTrack :=
  ⟨(c4_registry_resolution "UnknownCarrierXYZ").1 (by decide),
   (c4_registry_resolution "DHL").2.1 (by decide),
   (c4_registry_resolution "Cn").2.2.2.2.1 (Or.inr (by decide)),
   (c4_registry_resolution "YUNTU").2.2.2.2.2
     (Or.inr (Or.inr (by decide))),
   (c4_registry_resolution "17").2.2.2.1 (Or.inr (by decide))⟩

/-- C6: on the tracking read path a refresh is performed if and only if
`now - lastUpdated` strictly exceeds the 6-hour staleness threshold; a
non-stale cached record is returned with every field unchanged and no
side effect. -/
theorem c6_staleness_policy (sh : Shipping) (ord : Option Order)
    (fetch : Except String TrackingResult) (now : ℚ) :
    (now - sh.lastUpdated > stalenessThresholdMs →
      getTrackingInfo sh ord fetch now =
        refreshTrackingInfoInternal sh ord fetch now) ∧
    (¬ now - sh.lastUpdated > stalenessThresholdMs →
      getTrackingInfo sh ord fetch now = ⟨sh, ord, false⟩) := by
  constructor <;> intro h <;> unfold getTrackingInfo
  · rw [if_pos (by linarith)]
  · rw [if_neg (by intro hlt; exact h (by linarith))]

/-- C6 (witness): with `lastUpdated = 0`, a read at `now = 21600001` (one
millisecond past six hours) refreshes, while a read at exactly
`now = 21600000` serves the cached record unchanged. -/
theorem c6_witness :
    getTrackingInfo sampleShipping none (.error "CarrierUnavailable")
        21600001 =
      refreshTrackingInfoInternal sampleShipping none
        (.error "CarrierUnavailable") 21600001 ∧
    getTrackingInfo sampleShipping none (.error "CarrierUnavailable")
        21600000 = ⟨sampleShipping, none, false⟩ :=
  ⟨(c6_staleness_policy sampleShipping none (.error "CarrierUnavailable")
      21600001).1 (by norm_num [sampleShipping, stalenessThresholdMs]),
   (c6_staleness_policy sampleShipping none (.error "CarrierUnavailable")
      21600000).2 (by norm_num [sampleShipping, stalenessThresholdMs])⟩

/-- C7 (counterexample): the duplicated refresh handler
`refreshShippingTracking` overwrites `estimatedDeliveryDate`
unconditionally: a shipment holding the estimate `42` loses it (set to
null) when a successful fetch carries no estimate, contradicting the claim
that a null fetched estimate leaves the stored value unchanged. -/
theorem c7_counterexample :
    trNoEstimate.estimatedDeliveryDate = none ∧
    (refreshShippingTracking
      { sampleShipping with estimatedDeliveryDate := some 42 } none
      (.ok trNoEstimate) 100).shipping.estimatedDeliveryDate = none :=
  ⟨rfl, rfl⟩

/-- C7 (amended): in the canonical `refreshTrackingInfoInternal` the
fetched estimate overwrites the stored one only when the fetch provided
one, and a null fetched estimate leaves the stored value unchanged; the
duplicated refresh handlers of the unnamed controller instead assign the
fetched value unconditionally. -/
theorem c7_estimated_delivery_frame (sh : Shipping) (ord : Option Order)
    (t : TrackingResult) (now : ℚ) :
    (t.estimatedDeliveryDate = none →
      (refreshTrackingInfoInternal sh ord
        (.ok t) now).shipping.estimatedDeliveryDate =
        sh.estimatedDeliveryDate) ∧
    (∀ d, t.estimatedDeliveryDate = some d →
      (refreshTrackingInfoInternal sh ord
        (.ok t) now).shipping.estimatedDeliveryDate = some d) :=
  ⟨fun h => refreshInternal_ok_estimated_none sh ord t now h,
   fun d h => refreshInternal_ok_estimated_some sh ord t now d h⟩

/-- C7 (witness): a fetch without estimate preserves the stored estimate
`42`; a fetch with estimate `7` overwrites it. -/
theorem c7_witness :
    (refreshTrackingInfoInternal
      { sampleShipping with estimatedDeliveryDate := some 42 } none
      (.ok trNoEstimate) 100).shipping.estimatedDeliveryDate = some 42 ∧
    (refreshTrackingInfoInternal sampleShipping none
      (.ok { trNoEstimate with estimatedDeliveryDate := some 7 })
      100).shipping.estimatedDeliveryDate = some 7 :=
  ⟨(c7_estimated_delivery_frame
      { sampleShipping with estimatedDeliveryDate := some 42 } none
      trNoEstimate 100).1 rfl,
   (c7_estimated_delivery_frame sampleShipping none
      { trNoEstimate with estimatedDeliveryDate := some 7 } 100).2 7 rfl⟩

theorem jsTruthy_of_ne (s : String) (h : s ≠ "") :
    jsTruthy (some s) = some s := by
  simp [jsTruthy, h]

theorem jsTruthy_none : jsTruthy none = none := rfl

theorem updateShipping_ok_append (sh : Shipping) (ord : Option Order)
    (st : String) (noteArg : Option String) (now : ℚ)
    (hne : st ≠ sh.status) (hv : st ∈ validStatuses) :
    ∃ r : RefreshOutcome,
      updateShipping sh ord none none (some st) none noteArg now =
        .ok r ∧
      r.shipping.statusHistory = sh.statusHistory ++
        [⟨st, now, (jsTruthy noteArg).getD "管理员手动更新"⟩] := by
  have hne0 : st ≠ "" := by
    rintro rfl
    exact absurd hv (by decide)
  unfold updateShipping
  dsimp only
  rw [jsTruthy_none, jsTruthy_of_ne st hne0]
  dsimp only
  rw [if_pos hne, if_pos hv]
  refine ⟨_, rfl, ?_⟩
  dsimp only
  rw [propagateDelivered_statusHistory]

theorem updateShipping_enum_reject (sh : Shipping) (ord : Option Order)
    (st : String) (noteArg : Option String) (now : ℚ) (hne0 : st ≠ "")
    (hne : st ≠ sh.status) (hv : st ∉ validStatuses) :
    updateShipping sh ord none none (some st) none noteArg now =
      .error "ValidationError: status is not a valid enum value" := by
  unfold updateShipping
  dsimp only
  rw [jsTruthy_none, jsTruthy_of_ne st hne0]
  dsimp only
  rw [if_pos hne, if_neg hv]

theorem updateShipping_status_noop (sh : Shipping) (ord : Option Order)
    (st : String) (noteArg : Option String) (now : ℚ)
    (h : st = sh.status) :
    updateShipping sh ord none none (some st) none noteArg now =
      .ok ⟨{ sh with lastUpdated := now }, ord, false⟩ := by
  unfold updateShipping
  dsimp only
  rcases eq_or_ne st "" with h0 | h0
  · subst h0
    rfl
  · rw [jsTruthy_none, jsTruthy_of_ne st h0]
    dsimp only
    rw [if_neg (by simp [h])]

theorem jsObjectLookup_of_none (own : String → Option String) (c : String)
    (ht : own c = none) (hp : c ∉ objectPrototypeKeys) :
    jsObjectLookup own c = .status "unknown" := by
  unfold jsObjectLookup
  rw [ht]
  dsimp only
  rw [if_neg hp]

/-- C9 (amended): for the four adapters whose `mapStatusCode` is an
object-literal lookup (DHL, UPS, Cainiao, YunExpress): a code in the
adapter's table maps to that table's canonical status; an ordinary code
outside the table maps to `unknown`; but a code naming a member inherited
from `Object.prototype` (such as `constructor` or `toString`) makes
`statusMap[statusCode] || 'unknown'` return that inherited truthy member —
neither a canonical status nor `unknown`.  17Track's numeric `===` chain
has no object lookup, is total on its numeric codes with `unknown` off the
table, and called with the controller's string code always yields
`unknown`.  The fallback `MockTracker` defines no mapping function at all,
and invoking it raises a `TypeError` (see the counterexample). -/
theorem c9_map_status_codes (c : String) (n : Int) :
    ((c ∈ dhlStatusCodeKeys →
        ∃ s, dhlMapStatusCode c = .status s ∧ s ∈ canonicalStatuses) ∧
      (c ∉ dhlStatusCodeKeys → c ∉ objectPrototypeKeys →
        dhlMapStatusCode c = .status "unknown") ∧
      (c ∈ objectPrototypeKeys → dhlMapStatusCode c = .protoMember c)) ∧
    ((c ∈ upsStatusCodeKeys →
        ∃ s, upsMapStatusCode c = .status s ∧ s ∈ canonicalStatuses) ∧
      (c ∉ upsStatusCodeKeys → c ∉ objectPrototypeKeys →
        upsMapStatusCode c = .status "unknown") ∧
      (c ∈ objectPrototypeKeys → upsMapStatusCode c = .protoMember c)) ∧
    (seventeenMapStatusCode n ∈ canonicalStatuses ∧
      (n ∉ seventeenStatusCodeKeys →
        seventeenMapStatusCode n = "unknown") ∧
      trackerMapStatusCode Tracker.seventeenTrack c =
        some (.status "unknown")) ∧
    ((c ∈ cainiaoStatusCodeKeys →
        ∃ s, cainiaoMapStatusCode c = .status s ∧ s ∈ canonicalStatuses) ∧
      (c ∉ cainiaoStatusCodeKeys → c ∉ objectPrototypeKeys →
        cainiaoMapStatusCode c = .status "unknown") ∧
      (c ∈ objectPrototypeKeys →
        cainiaoMapStatusCode c = .protoMember c)) ∧
    ((c ∈ yunStatusCodeKeys →
        ∃ s, yunMapStatusCode c = .status s ∧ s ∈ canonicalStatuses) ∧
      (c ∉ yunStatusCodeKeys → c ∉ objectPrototypeKeys →
        yunMapStatusCode c = .status "unknown") ∧
      (c ∈ objectPrototypeKeys → yunMapStatusCode c = .protoMember c)) := by
  refine ⟨⟨?_, ?_, ?_⟩, ⟨?_, ?_, ?_⟩, ⟨?_, ?_, ?_⟩, ⟨?_, ?_, ?_⟩,
    ⟨?_, ?_, ?_⟩⟩
  · intro h
    simp only [dhlStatusCodeKeys, List.mem_cons,
      List.not_mem_nil, or_false] at h
    rcases h with rfl | rfl | rfl | rfl | rfl <;>
      exact ⟨_, rfl, by decide⟩
  · intro h hp
    refine jsObjectLookup_of_none dhlStatusTable c ?_ hp
    unfold dhlStatusTable
    split <;> first
      | rfl
      | (exfalso; apply h; simp [dhlStatusCodeKeys, *])
  · intro hp
    simp only [objectPrototypeKeys, List.mem_cons,
      List.not_mem_nil, or_false] at hp
    rcases hp with rfl | rfl | rfl | rfl | rfl | rfl | rfl | rfl | rfl |
      rfl | rfl | rfl <;> decide
  · intro h
    simp only [upsStatusCodeKeys, List.mem_cons,
      List.not_mem_nil, or_false] at h
    rcases h with rfl | rfl | rfl | rfl | rfl <;>
      exact ⟨_, rfl, by decide⟩
  · intro h hp
    refine jsObjectLookup_of_none upsStatusTable c ?_ hp
    unfold upsStatusTable
    split <;> first
      | rfl
      | (exfalso; apply h; simp [upsStatusCodeKeys, *])
  · intro hp
    simp only [objectPrototypeKeys, List.mem_cons,
      List.not_mem_nil, or_false] at hp
    rcases hp with rfl | rfl | rfl | rfl | rfl | rfl | rfl | rfl | rfl |
      rfl | rfl | rfl <;> decide
  · unfold seventeenMapStatusCode
    split_ifs <;> simp [canonicalStatuses]
  · intro h
    unfold seventeenMapStatusCode
    split_ifs <;> first
      | rfl
      | (exfalso; apply h; simp [seventeenStatusCodeKeys, *])
  · rfl
  · intro h
    simp only [cainiaoStatusCodeKeys, List.mem_cons,
      List.not_mem_nil, or_false] at h
    rcases h with rfl | rfl | rfl | rfl | rfl <;>
      exact ⟨_, rfl, by decide⟩
  · intro h hp
    refine jsObjectLookup_of_none cainiaoStatusTable c ?_ hp
    unfold cainiaoStatusTable
    split <;> first
      | rfl
      | (exfalso; apply h; simp [cainiaoStatusCodeKeys, *])
  · intro hp
    simp only [objectPrototypeKeys, List.mem_cons,
      List.not_mem_nil, or_false] at hp
    rcases hp with rfl | rfl | rfl | rfl | rfl | rfl | rfl | rfl | rfl |
      rfl | rfl | rfl <;> decide
  · intro h
    simp only [yunStatusCodeKeys, List.mem_cons,
      List.not_mem_nil, or_false] at h
    rcases h with rfl | rfl | rfl | rfl <;>
      exact ⟨_, rfl, by decide⟩
  · intro h hp
    refine jsObjectLookup_of_none yunStatusTable c ?_ hp
    unfold yunStatusTable
    split <;> first
      | rfl
      | (exfalso; apply h; simp [yunStatusCodeKeys, *])
  · intro hp
    simp only [objectPrototypeKeys, List.mem_cons,
      List.not_mem_nil, or_false] at hp
    rcases hp with rfl | rfl | rfl | rfl | rfl | rfl | rfl | rfl | rfl |
      rfl | rfl | rfl <;> decide

/-- C9 (witness): `transit` is in DHL's table and maps to a canonical
status; the ordinary unmapped codes `"zzz"` (DHL) and `5` (17Track's
numeric chain) map to `unknown`, as does 17Track on any string code; but
the `Object.prototype` member names `constructor`, `toString`, `valueOf`
and `hasOwnProperty` make the four object-lookup adapters return the
inherited member instead of a status. -/
theorem c9_witness :
    (∃ s, dhlMapStatusCode "transit" = .status s ∧
      s ∈ canonicalStatuses) ∧
    dhlMapStatusCode "zzz" = .status "unknown" ∧
    dhlMapStatusCode "constructor" = .protoMember "constructor" ∧
    upsMapStatusCode "toString" = .protoMember "toString" ∧
    seventeenMapStatusCode 5 = "unknown" ∧
    trackerMapStatusCode Tracker.seventeenTrack "zzz" =
      some (.status "unknown") ∧
    cainiaoMapStatusCode "valueOf" = .protoMember "valueOf" ∧
    yunMapStatusCode "hasOwnProperty" = .protoMember "hasOwnProperty" :=
  ⟨(c9_map_status_codes "transit" 5).1.1 (by decide),
   (c9_map_status_codes "zzz" 5).1.2.1 (by decide) (by decide),
   (c9_map_status_codes "constructor" 5).1.2.2 (by decide),
   (c9_map_status_codes "toString" 5).2.1.2.2 (by decide),
   (c9_map_status_codes "zzz" 5).2.2.1.2.1 (by decide),
   (c9_map_status_codes "zzz" 5).2.2.1.2.2,
   (c9_map_status_codes "valueOf" 5).2.2.2.1.2.2 (by decide),
   (c9_map_status_codes "hasOwnProperty" 5).2.2.2.2.2.2 (by decide)⟩

/-- C9 (counterexample): two refutations of "each carrier adapter's
mapping is total, never raises and yields a canonical status for every
input".  First, the prototype chain: `statusMap["constructor"]` finds the
member object literals inherit from `Object.prototype`, which is truthy,
so `|| 'unknown'` keeps it and DHL's mapping returns a function object —
not a canonical status string.  Second, the fallback `MockTracker`
resolved for the unrecognized carrier `"FedEx"` has no status-code mapping
function at all, so invoking it — as `addTrackingEvent` does for any
truthy status code — raises a `TypeError`. -/
theorem c9_counterexample :
    dhlMapStatusCode "constructor" = .protoMember "constructor" ∧
    upsMapStatusCode "hasOwnProperty" = .protoMember "hasOwnProperty" ∧
    trackerMapStatusCode (createShippingTracker "FedEx") "delivered" =
      none ∧
    addTrackingEvent { sampleShipping with carrier := "FedEx" } none
      "手动事件" none (some "delivered") 100 =
      .error "TypeError: tracker.mapStatusCode is not a function" :=
  ⟨by decide, by decide, rfl, rfl⟩

/-- C3 (counterexample): the duplicated `updateShipping` of the unnamed
controller assigns the new status before comparing it with the stored one,
so its history-append branch is dead code: updating the sample shipment
(stored status `pending`) to `in_transit` — a genuine status change —
leaves `statusHistory` completely unchanged, contradicting the claim that
exactly one entry is appended on every observed status change. -/
theorem c3_counterexample :
    sampleShipping.status = "pending" ∧
    (updateShippingV0 sampleShipping none none none (some "in_transit")
      none 100).shipping.status = "in_transit" ∧
    (updateShippingV0 sampleShipping none none none (some "in_transit")
      none 100).shipping.statusHistory = sampleShipping.statusHistory :=
  ⟨rfl, rfl, rfl⟩

/-- C3 (amended): in the canonical controller, for every shipment whose
last status-history entry matches its stored status (true of every
shipment the system creates): a refresh whose fetched status lies in the
model's enum appends exactly one entry when it differs from the stored
status and none when it is equal; a manual update requesting a different,
enum-valid status appends exactly one entry; a manual update requesting a
different status *outside* the model's five-value enum (such as `unknown`
or `out_for_delivery`) makes `shipping.save()` throw a `ValidationError`,
so the request fails and no entry is persisted; and a manual update
requesting the stored status appends nothing.  The duplicated
`updateShipping` of the unnamed controller never appends (see the
counterexample). -/
theorem c3_status_history_growth (sh : Shipping) (ord : Option Order)
    (t : TrackingResult) (st : String) (noteArg : Option String) (now : ℚ)
    (e : StatusHistoryEntry) (hl : sh.statusHistory.getLast? = some e)
    (he : e.status = sh.status) :
    ((t.status ∈ validStatuses → t.status ≠ sh.status →
      (refreshTrackingInfoInternal sh ord
        (.ok t) now).shipping.statusHistory =
        sh.statusHistory ++ [⟨t.status, now, "系统自动更新"⟩]) ∧
     (t.status = sh.status →
      (refreshTrackingInfoInternal sh ord
        (.ok t) now).shipping.statusHistory = sh.statusHistory)) ∧
    ((st ≠ sh.status → st ∈ validStatuses →
      ∃ r : RefreshOutcome,
        updateShipping sh ord none none (some st) none noteArg now =
          .ok r ∧
        r.shipping.statusHistory = sh.statusHistory ++
          [⟨st, now, (jsTruthy noteArg).getD "管理员手动更新"⟩]) ∧
     (st ≠ "" → st ≠ sh.status → st ∉ validStatuses →
      updateShipping sh ord none none (some st) none noteArg now =
        .error "ValidationError: status is not a valid enum value") ∧
     (st = sh.status →
      updateShipping sh ord none none (some st) none noteArg now =
        .ok ⟨{ sh with lastUpdated := now }, ord, false⟩)) := by
  have hmatch : (match sh.statusHistory.getLast? with
      | some entry => some entry.status
      | none => none) = some sh.status := by
    rw [hl]
    dsimp only
    rw [he]
  refine ⟨⟨?_, ?_⟩, ?_, ?_, ?_⟩
  · intro _ h
    rw [refreshInternal_ok_statusHistory, hmatch, if_pos]
    simpa [eq_comm] using h
  · intro h
    rw [refreshInternal_ok_statusHistory, hmatch, if_neg]
    simp [h]
  · intro h hv
    exact updateShipping_ok_append sh ord st noteArg now h hv
  · intro h0 h hv
    exact updateShipping_enum_reject sh ord st noteArg now h0 h hv
  · intro h
    exact updateShipping_status_noop sh ord st noteArg now h

/-- C3 (witness): on the freshly created sample shipment (stored status
`pending`, matching last history entry): a refresh reporting `in_transit`
appends exactly the one automatic entry; a manual update to the enum
status `in_transit` succeeds and appends exactly the one manual entry; a
manual update to the out-of-enum `out_for_delivery` throws a
`ValidationError` and persists nothing; and a manual update re-requesting
`pending` appends nothing. -/
theorem c3_witness :
    (refreshTrackingInfoInternal sampleShipping none (.ok trNoEstimate)
      100).shipping.statusHistory =
      sampleShipping.statusHistory ++ [⟨"in_transit", 100, "系统自动更新"⟩] ∧
    (∃ r : RefreshOutcome,
      updateShipping sampleShipping none none none (some "in_transit")
        none none 100 = .ok r ∧
      r.shipping.statusHistory = sampleShipping.statusHistory ++
        [⟨"in_transit", 100, "管理员手动更新"⟩]) ∧
    updateShipping sampleShipping none none none
      (some "out_for_delivery") none none 100 =
      .error "ValidationError: status is not a valid enum value" ∧
    updateShipping sampleShipping none none none (some "pending") none
      none 100 =
      .ok ⟨{ sampleShipping with lastUpdated := 100 }, none, false⟩ :=
  ⟨(c3_status_history_growth sampleShipping none trNoEstimate
      "in_transit" none 100 ⟨"pending", 0, "物流信息已创建"⟩ rfl rfl).1.1
      (by decide) (by decide),
   (c3_status_history_growth sampleShipping none trNoEstimate
      "in_transit" none 100 ⟨"pending", 0, "物流信息已创建"⟩ rfl rfl).2.1
      (by decide) (by decide),
   (c3_status_history_growth sampleShipping none trNoEstimate
      "out_for_delivery" none 100 ⟨"pending", 0, "物流信息已创建"⟩ rfl
      rfl).2.2.1 (by decide) (by decide) (by decide),
   (c3_status_history_growth sampleShipping none trNoEstimate "pending"
      none 100 ⟨"pending", 0, "物流信息已创建"⟩ rfl rfl).2.2.2 rfl⟩

theorem sortedStrictDescB_append_le (a : TrackingEvent) :
    ∀ l : List TrackingEvent, l ≠ [] →
      (∀ ev ∈ l, ev.timestamp ≤ a.timestamp) →
      sortedStrictDescB (l ++ [a]) = false
  | [], h, _ => absurd rfl h
  | [b], _, hle => by
    have hb : b.timestamp ≤ a.timestamp := hle b (by simp)
    simp only [List.cons_append, List.nil_append, sortedStrictDescB,
      Bool.and_eq_false_iff, decide_eq_false_iff_not, not_lt]
    exact Or.inl hb
  | b :: c :: l, _, hle => by
    have ih := sortedStrictDescB_append_le a (c :: l) (by simp)
      (fun ev hev => hle ev (List.mem_cons_of_mem b hev))
    simp only [List.cons_append] at ih ⊢
    simp only [sortedStrictDescB, ih, Bool.and_false]

/-- C10: the canonical `addTrackingEvent` appends the new event, stamped
with the current time, at the end of `trackingHistory` without re-sorting;
hence for every shipment whose non-empty `trackingHistory` is sorted by
timestamp strictly descending and records only events up to the current
time, the resulting history is no longer sorted strictly descending. -/
theorem c10_insert_breaks_sort (sh : Shipping) (ord : Option Order)
    (description : String) (locationArg : Option String) (now : ℚ)
    (hne : sh.trackingHistory ≠ [])
    (hsorted : sortedStrictDescB sh.trackingHistory = true)
    (hpast : ∀ ev ∈ sh.trackingHistory, ev.timestamp ≤ now) :
    ∃ r : RefreshOutcome,
      addTrackingEvent sh ord description locationArg none now = .ok r ∧
      r.shipping.trackingHistory = sh.trackingHistory ++
        [⟨now, description, locationArg.getD "", "unknown"⟩] ∧
      sortedStrictDescB r.shipping.trackingHistory = false := by
  refine ⟨_, rfl, rfl, ?_⟩
  exact sortedStrictDescB_append_le _ sh.trackingHistory hne hpast

/-- C10 (witness): inserting a manual event at time `200` after a
single-event history recorded at time `100` leaves the new event at the
end and the history unsorted. -/
theorem c10_witness :
    ∃ r : RefreshOutcome,
      addTrackingEvent
        { sampleShipping with
            trackingHistory := [⟨100, "事件", "", "pending"⟩] } none
        "手动事件" none none 200 = .ok r ∧
      r.shipping.trackingHistory =
        [⟨100, "事件", "", "pending"⟩] ++ [⟨200, "手动事件", "", "unknown"⟩] ∧
      sortedStrictDescB r.shipping.trackingHistory = false :=
  c10_insert_breaks_sort
    { sampleShipping with trackingHistory := [⟨100, "事件", "", "pending"⟩] }
    none "手动事件" none 200 (by decide) (by decide)
    (by intro ev hev; simp at hev; rw [hev]; decide)

theorem generateMockResponse_trackingHistory (carrier : String)
    (descs locs : List String) (hasEstimate : Bool)
    (trackingNumber : String) (now : ℚ) (d : MockDraws) :
    (generateMockResponse carrier descs locs hasEstimate trackingNumber
      now d).trackingHistory =
      jsSortByTimestampDesc ((List.range (mockHistoryCount d)).map
        (mockEvent descs locs now (mockHistoryCount d) d)) :=
  rfl

/-- C8 (amended): after every successful refresh whose adapter response
comes from one of the synthetic generators (any draw oracle, any carrier
pools), the shipment's `trackingHistory` is sorted by timestamp
descending — but only weakly: adjacent events may share a timestamp, so
the order is not strictly descending in general (see the
counterexample). -/
theorem c8_sort_invariant (sh : Shipping) (ord : Option Order)
    (carrier : String) (descs locs : List String) (hasEstimate : Bool)
    (trackingNumber : String) (fetchTime now : ℚ) (d : MockDraws) :
    List.Pairwise timeDescRel
      ((refreshTrackingInfoInternal sh ord
        (.ok (generateMockResponse carrier descs locs hasEstimate
          trackingNumber fetchTime d)) now).shipping.trackingHistory) := by
  rw [refreshInternal_ok_trackingHistory,
    generateMockResponse_trackingHistory]
  exact List.sorted_insertionSort timeDescRel _

/-- C8 (counterexample): the generators sort with the non-strict
comparator `b.timestamp - a.timestamp`, and distinct records can land on
the same timestamp (`daysAgo = i * (draw + 1)` overlaps across indexes):
with four records and time draws `1/2` at index 2 and `0` at index 3,
records 2 and 3 both sit exactly 3 days before the fetch time, so after a
successful refresh the history is *not* sorted strictly descending. -/
theorem c8_counterexample :
    sortedStrictDescB ((refreshTrackingInfoInternal sampleShipping none
      (.ok (dhlGenerateMockResponse "DHL123" 1000000000 drawsTie))
      1000000001).shipping.trackingHistory) = false := by
  rw [refreshInternal_ok_trackingHistory]
  unfold dhlGenerateMockResponse
  rw [generateMockResponse_trackingHistory]
  have hc : mockHistoryCount drawsTie = 4 := by
    norm_num [mockHistoryCount, drawsTie]
  rw [hc]
  norm_num [List.range_succ, mockEvent, drawsTie, dayMs,
    jsSortByTimestampDesc, List.insertionSort, List.orderedInsert,
    timeDescRel, mockHistoryCount, genericTransitDescs, genericLocations,
    sortedStrictDescB]

theorem generateMockResponse_status (carrier : String)
    (descs locs : List String) (hasEstimate : Bool)
    (trackingNumber : String) (now : ℚ) (d : MockDraws) :
    (generateMockResponse carrier descs locs hasEstimate trackingNumber
      now d).status =
      mockOverallStatus (jsSortByTimestampDesc
        ((List.range (mockHistoryCount d)).map
          (mockEvent descs locs now (mockHistoryCount d) d))) :=
  rfl

/-- C5 (counterexample): the fallback `MockTracker` response is neither
fixed nor `pending`-statused: the overall status is the newest generated
record's code, which the newest-record branch makes `in_transit` (branch
draw `≤ 0.7`) or `delivered` (branch draw `> 0.7`) — two calls with
different draws return different results, and neither has status
`pending`. -/
theorem c5_counterexample :
    (mockGetTracking "UnknownCarrierXYZ" "TN1" 1000000000 drawsA).status =
      "in_transit" ∧
    (mockGetTracking "UnknownCarrierXYZ" "TN1" 1000000000 drawsB).status =
      "delivered" := by
  constructor <;>
  · unfold mockGetTracking
    rw [generateMockResponse_status]
    norm_num [mockHistoryCount, drawsA, drawsB, List.range_succ, mockEvent,
      dayMs, jsSortByTimestampDesc, List.insertionSort, List.orderedInsert,
      timeDescRel, mockOverallStatus, genericTransitDescs, genericLocations]

theorem jsSort_cons_of_lt (e0 : TrackingEvent)
    (rest : List TrackingEvent)
    (h : ∀ e ∈ rest, e.timestamp < e0.timestamp) :
    jsSortByTimestampDesc (e0 :: rest) =
      e0 :: jsSortByTimestampDesc rest := by
  unfold jsSortByTimestampDesc
  show List.orderedInsert timeDescRel e0
    (List.insertionSort timeDescRel rest) =
      e0 :: List.insertionSort timeDescRel rest
  rcases hs : List.insertionSort timeDescRel rest with _ | ⟨c, t⟩
  · rfl
  · have hc : c ∈ rest := by
      have : c ∈ List.insertionSort timeDescRel rest := by
        rw [hs]; exact List.mem_cons_self c t
      exact (List.perm_insertionSort timeDescRel rest).mem_iff.mp this
    have hrel : timeDescRel e0 c := le_of_lt (h c hc)
    simp [List.orderedInsert, hrel]

theorem mockEvent_timestamp (descs locs : List String) (now : ℚ)
    (count : ℕ) (d : MockDraws) (i : ℕ) :
    (mockEvent descs locs now count d i).timestamp =
      now - (i : ℚ) * (d.time i + 1) * dayMs := by
  unfold mockEvent
  dsimp only
  split
  · split <;> rfl
  · split <;> rfl

theorem mockEvent_zero_statusCode (descs locs : List String) (now : ℚ)
    (count : ℕ) (d : MockDraws) :
    (mockEvent descs locs now count d 0).statusCode =
      if d.top > 7/10 then "delivered" else "in_transit" := by
  unfold mockEvent
  dsimp only
  rw [if_pos rfl]
  split <;> simp [*]

/-- C5 (amended): for every tracking number and every valid draw oracle,
the fallback `MockTracker` fetch succeeds (the generator is a total
function) and returns a synthetic trajectory of 3 to 8 records sorted by
timestamp descending; the overall status equals the newest record's code,
which is `delivered` exactly when the branch draw exceeds `0.7` and
`in_transit` otherwise — so the result varies with the draws and its
status is never `pending`. -/
theorem c5_fallback_response (carrier trackingNumber : String) (now : ℚ)
    (d : MockDraws) (hcnt0 : 0 ≤ d.count) (hcnt1 : d.count < 1)
    (htime : ∀ i, 0 ≤ d.time i) :
    (mockGetTracking carrier trackingNumber now d).status =
      (if d.top > 7/10 then "delivered" else "in_transit") ∧
    3 ≤ (mockGetTracking carrier trackingNumber now
      d).trackingHistory.length ∧
    (mockGetTracking carrier trackingNumber now
      d).trackingHistory.length ≤ 8 ∧
    List.Pairwise timeDescRel
      (mockGetTracking carrier trackingNumber now d).trackingHistory := by
  have hcount : mockHistoryCount d = (⌊d.count * 6⌋).toNat + 2 + 1 := rfl
  have hfloor : (⌊d.count * 6⌋).toNat ≤ 5 := by
    have h6 : d.count * 6 < 6 := by linarith
    have : ⌊d.count * 6⌋ < 6 := Int.floor_lt.mpr (by exact_mod_cast h6)
    omega
  refine ⟨?_, ?_, ?_, ?_⟩
  · unfold mockGetTracking
    rw [generateMockResponse_status, hcount, List.range_succ_eq_map]
    rw [List.map_cons, List.map_map]
    rw [jsSort_cons_of_lt]
    · simp only [mockOverallStatus]
      rw [mockEvent_zero_statusCode]
    · intro e he
      rw [List.mem_map] at he
      obtain ⟨j, _, hj⟩ := he
      rw [← hj]
      show (mockEvent genericTransitDescs genericLocations now
        (mockHistoryCount d) d (Nat.succ j)).timestamp < _
      rw [mockEvent_timestamp, mockEvent_timestamp]
      have h1 : (0 : ℚ) < ((Nat.succ j : ℕ) : ℚ) := by
        exact_mod_cast Nat.succ_pos j
      have h2 : (0 : ℚ) < d.time (Nat.succ j) + 1 := by
        have := htime (Nat.succ j)
        linarith
      have h3 : (0 : ℚ) < dayMs := by norm_num [dayMs]
      have h4 : (0 : ℚ) < ((Nat.succ j : ℕ) : ℚ) *
          (d.time (Nat.succ j) + 1) * dayMs :=
        mul_pos (mul_pos h1 h2) h3
      push_cast
      push_cast at h4
      nlinarith
  · unfold mockGetTracking
    rw [generateMockResponse_trackingHistory]
    unfold jsSortByTimestampDesc
    rw [(List.perm_insertionSort timeDescRel _).length_eq]
    rw [List.length_map, List.length_range, hcount]
    omega
  · unfold mockGetTracking
    rw [generateMockResponse_trackingHistory]
    unfold jsSortByTimestampDesc
    rw [(List.perm_insertionSort timeDescRel _).length_eq]
    rw [List.length_map, List.length_range, hcount]
    omega
  · unfold mockGetTracking
    rw [generateMockResponse_trackingHistory]
    exact List.sorted_insertionSort timeDescRel _

/-- C5 (witness): with the all-zero draw oracle the fallback fetch at a
concrete tracking number yields an `in_transit` status (the branch draw
`0` does not exceed `0.7`), between 3 and 8 records, sorted descending. -/
theorem c5_witness :
    (mockGetTracking "UnknownCarrierXYZ" "TN1" 1000000000 drawsA).status =
      (if drawsA.top > 7/10 then "delivered" else "in_transit") ∧
    3 ≤ (mockGetTracking "UnknownCarrierXYZ" "TN1" 1000000000
      drawsA).trackingHistory.length ∧
    (mockGetTracking "UnknownCarrierXYZ" "TN1" 1000000000
      drawsA).trackingHistory.length ≤ 8 ∧
    List.Pairwise timeDescRel
      (mockGetTracking "UnknownCarrierXYZ" "TN1" 1000000000
        drawsA).trackingHistory :=
  c5_fallback_response "UnknownCarrierXYZ" "TN1" 1000000000 drawsA
    (by norm_num [drawsA]) (by norm_num [drawsA])
    (fun i => by norm_num [drawsA])

theorem refreshInternal_ok_stable (sh : Shipping) (ord : Option Order)
    (t : TrackingResult) (now d0 : ℚ) (ht : t.status = "delivered")
    (hd : sh.deliveredDate = some d0) (e : StatusHistoryEntry)
    (hl : sh.statusHistory.getLast? = some e)
    (he : e.status = "delivered") :
    refreshTrackingInfoInternal sh ord (.ok t) now =
      ⟨match t.estimatedDeliveryDate with
       | some dd => { sh with status := t.status,
                              trackingHistory := t.trackingHistory,
                              apiResponse := none, lastUpdated := now,
                              estimatedDeliveryDate := some dd }
       | none => { sh with status := t.status,
                           trackingHistory := t.trackingHistory,
                           apiResponse := none, lastUpdated := now },
       ord, false⟩ := by
  unfold refreshTrackingInfoInternal
  dsimp only
  have hls : (match sh.statusHistory.getLast? with
      | some entry => some entry.status
      | none => none) = some t.status := by
    rw [hl]
    dsimp only
    rw [he, ht]
  rw [if_neg (by simp [hls]), propagateDelivered_of_date_set]
  simp [hd]

theorem refreshInternal_ok_first (sh : Shipping) (o : Order)
    (t : TrackingResult) (now : ℚ) (ht : t.status = "delivered")
    (hd : sh.deliveredDate = none) (ho : o.status ≠ "delivered") :
    ∃ shF : Shipping,
      refreshTrackingInfoInternal sh (some o) (.ok t) now =
        ⟨shF, some { o with status := "delivered",
                            deliveredAt := some now }, true⟩ ∧
      shF.deliveredDate = some now ∧ shF.status = "delivered" ∧
      shF.carrier = sh.carrier ∧
      ∃ e2, shF.statusHistory.getLast? = some e2 ∧
        e2.status = "delivered" := by
  unfold refreshTrackingInfoInternal
  dsimp only
  by_cases hc : (match sh.statusHistory.getLast? with
      | some entry => some entry.status
      | none => none) ≠ some t.status
  · rw [if_pos hc, propagateDelivered_first]
    · rcases hE : t.estimatedDeliveryDate with _ | dd <;>
        dsimp only <;>
        exact ⟨_, rfl, rfl, ht, rfl,
          ⟨⟨t.status, now, "系统自动更新"⟩, by simp, ht⟩⟩
    · exact ht
    · exact hd
    · exact ho
  · have heq : (match sh.statusHistory.getLast? with
        | some entry => some entry.status
        | none => none) = some t.status := not_ne_iff.mp hc
    have hlast : ∃ e2, sh.statusHistory.getLast? = some e2 ∧
        e2.status = "delivered" := by
      rcases hgl : sh.statusHistory.getLast? with _ | e
      · rw [hgl] at heq
        simp at heq
      · rw [hgl] at heq
        dsimp only at heq
        exact ⟨e, rfl, by rw [Option.some_inj.mp heq, ht]⟩
    rw [if_neg hc, propagateDelivered_first]
    · rcases hE : t.estimatedDeliveryDate with _ | dd <;>
        dsimp only <;>
        exact ⟨_, rfl, rfl, ht, rfl, hlast⟩
    · exact ht
    · exact hd
    · exact ho

theorem updateShipping_first (sh : Shipping) (o : Order)
    (noteArg : Option String) (now : ℚ) (hs : sh.status ≠ "delivered")
    (hd : sh.deliveredDate = none) (ho : o.status ≠ "delivered") :
    updateShipping sh (some o) none none (some "delivered") none noteArg
      now =
      .ok ⟨{ sh with status := "delivered",
                     statusHistory := sh.statusHistory ++
                       [⟨"delivered", now,
                         (jsTruthy noteArg).getD "管理员手动更新"⟩],
                     deliveredDate := some now, lastUpdated := now },
           some { o with status := "delivered", deliveredAt := some now },
           true⟩ := by
  unfold updateShipping
  dsimp only
  rw [jsTruthy_none, jsTruthy_of_ne "delivered" (by decide)]
  dsimp only
  rw [if_pos (Ne.symm hs),
    if_pos (show "delivered" ∈ validStatuses by decide),
    propagateDelivered_first]
  all_goals first
    | rfl
    | exact hd
    | exact ho

theorem addTrackingEvent_mapped_noop (sh : Shipping) (ord : Option Order)
    (description : String) (locationArg : Option String)
    (code st : String) (now : ℚ) (hc0 : code ≠ "")
    (hmap : trackerMapStatusCode (createShippingTracker sh.carrier) code =
      some (.status st))
    (h : st = sh.status) :
    addTrackingEvent sh ord description locationArg (some code) now =
      .ok ⟨{ sh with trackingHistory := sh.trackingHistory ++ [⟨now, description, locationArg.getD "", code⟩], lastUpdated := now }, ord, false⟩ := by
  unfold addTrackingEvent
  dsimp only
  rw [jsTruthy_of_ne code hc0]
  dsimp only
  rw [hmap]
  dsimp only
  rw [if_neg (by simp [h])]
  rfl

theorem addTrackingEvent_first (sh : Shipping) (o : Order)
    (description : String) (locationArg : Option String) (code : String)
    (now : ℚ) (hc0 : code ≠ "")
    (hmap : trackerMapStatusCode (createShippingTracker sh.carrier) code =
      some (.status "delivered"))
    (hs : sh.status ≠ "delivered") (hd : sh.deliveredDate = none)
    (ho : o.status ≠ "delivered") :
    addTrackingEvent sh (some o) description locationArg (some code) now =
      .ok ⟨{ sh with trackingHistory := sh.trackingHistory ++ [⟨now, description, locationArg.getD "", code⟩], status := "delivered", statusHistory := sh.statusHistory ++ [⟨"delivered", now, "根据新添加的跟踪记录更新"⟩], deliveredDate := some now, lastUpdated := now }, some { o with status := "delivered", deliveredAt := some now }, true⟩ := by
  unfold addTrackingEvent
  dsimp only
  rw [jsTruthy_of_ne code hc0]
  dsimp only
  rw [hmap]
  dsimp only
  rw [if_pos (Ne.symm hs),
    if_pos (show "delivered" ∈ validStatuses by decide),
    propagateDelivered_first]
  all_goals first
    | rfl
    | exact hd
    | exact ho

theorem stepOp_stable (carrier : String) (d0 : ℚ) (s : SysState)
    (op : AdminOp) (now : ℚ) (hinv : DeliveredStable carrier d0 s)
    (hop : reportsDelivered carrier op) :
    DeliveredStable carrier d0 (stepOp s op now) ∧
    (stepOp s op now).orderSaves = s.orderSaves := by
  obtain ⟨hcar, hst, hdd, ⟨e, hl, he⟩, hord⟩ := hinv
  cases op with
  | refresh fetch =>
    obtain ⟨t, rfl, ht⟩ := hop
    unfold stepOp
    dsimp only
    rw [refreshInternal_ok_stable s.shipping s.order t now d0 ht hdd e hl
      he]
    rcases hE : t.estimatedDeliveryDate with _ | dd <;>
      exact ⟨⟨hcar, ht, hdd, ⟨e, hl, he⟩, hord⟩, by simp⟩
  | statusEdit st noteArg =>
    have hst2 : st = "delivered" := hop
    subst hst2
    unfold stepOp
    dsimp only
    rw [updateShipping_status_noop s.shipping s.order "delivered" noteArg
      now hst.symm]
    exact ⟨⟨hcar, hst, hdd, ⟨e, hl, he⟩, hord⟩, by simp⟩
  | insertEvent description locationArg codeArg =>
    obtain ⟨c, rfl, hc0, hmapc⟩ := hop
    unfold stepOp
    dsimp only
    rw [addTrackingEvent_mapped_noop s.shipping s.order description
      locationArg c "delivered" now hc0 (by rw [hcar]; exact hmapc)
      hst.symm]
    exact ⟨⟨hcar, hst, hdd, ⟨e, hl, he⟩, hord⟩, by simp⟩

theorem stepOp_first (s : SysState) (o : Order) (op : AdminOp) (now : ℚ)
    (hord : s.order = some o) (hd : s.shipping.deliveredDate = none)
    (hs : s.shipping.status ≠ "delivered") (ho : o.status ≠ "delivered")
    (hop : reportsDelivered s.shipping.carrier op) :
    DeliveredStable s.shipping.carrier now (stepOp s op now) ∧
    (stepOp s op now).orderSaves = s.orderSaves + 1 ∧
    (stepOp s op now).shipping.deliveredDate = some now := by
  cases op with
  | refresh fetch =>
    obtain ⟨t, rfl, ht⟩ := hop
    obtain ⟨shF, heq, hFd, hFs, hFc, hFl⟩ :=
      refreshInternal_ok_first s.shipping o t now ht hd ho
    unfold stepOp
    dsimp only
    rw [hord, heq]
    refine ⟨⟨hFc, hFs, hFd, hFl, ?_⟩, by simp, hFd⟩
    intro o2 ho2
    rw [← Option.some_inj.mp ho2]
  | statusEdit st noteArg =>
    have hst2 : st = "delivered" := hop
    subst hst2
    unfold stepOp
    dsimp only
    rw [hord, updateShipping_first s.shipping o noteArg now hs hd ho]
    refine ⟨⟨rfl, rfl, rfl, ⟨⟨"delivered", now,
      (jsTruthy noteArg).getD "管理员手动更新"⟩, by simp, rfl⟩, ?_⟩,
      by simp, rfl⟩
    intro o2 ho2
    rw [← Option.some_inj.mp ho2]
  | insertEvent description locationArg codeArg =>
    obtain ⟨c, rfl, hc0, hmapc⟩ := hop
    unfold stepOp
    dsimp only
    rw [hord, addTrackingEvent_first s.shipping o description locationArg
      c now hc0 hmapc hs hd ho]
    refine ⟨⟨rfl, rfl, rfl, ⟨⟨"delivered", now,
      "根据新添加的跟踪记录更新"⟩, by simp, rfl⟩, ?_⟩, by simp, rfl⟩
    intro o2 ho2
    rw [← Option.some_inj.mp ho2]

theorem runOps_stable (carrier : String) (d0 : ℚ) :
    ∀ (ops : List (AdminOp × ℚ)) (s : SysState),
      DeliveredStable carrier d0 s →
      (∀ p ∈ ops, reportsDelivered carrier p.1) →
      DeliveredStable carrier d0 (runOps s ops) ∧
      (runOps s ops).orderSaves = s.orderSaves
  | [], _, hinv, _ => ⟨hinv, rfl⟩
  | (op, t) :: rest, s, hinv, hops => by
    have h1 := stepOp_stable carrier d0 s op t hinv
      (hops (op, t) (by simp))
    have ih := runOps_stable carrier d0 rest (stepOp s op t) h1.1
      (fun p hp => hops p (List.mem_cons_of_mem _ hp))
    exact ⟨ih.1, by rw [show runOps s ((op, t) :: rest) =
      runOps (stepOp s op t) rest from rfl, ih.2, h1.2]⟩

/-- C1 (counterexample): the duplicated `refreshShippingTracking` handler
of the unnamed controller re-assigns `deliveredDate` and re-saves the
order on *every* refresh that reports `delivered` (it has no
`!shipping.deliveredDate` guard): two consecutive delivered-reporting
refreshes assign `deliveredDate` twice (first `100`, then overwritten to
`200`) and perform the mark-order-delivered save twice, contradicting the
claim that the date is assigned at most once and the order update
performed exactly once. -/
theorem c1_counterexample :
    (refreshShippingTracking sampleShipping (some sampleOrder)
      (.ok trDelivered) 100).shipping.deliveredDate = some 100 ∧
    (refreshShippingTracking sampleShipping (some sampleOrder)
      (.ok trDelivered) 100).orderSaved = true ∧
    (refreshShippingTracking
      (refreshShippingTracking sampleShipping (some sampleOrder)
        (.ok trDelivered) 100).shipping
      (refreshShippingTracking sampleShipping (some sampleOrder)
        (.ok trDelivered) 100).order
      (.ok trDelivered) 200).shipping.deliveredDate = some 200 ∧
    (refreshShippingTracking
      (refreshShippingTracking sampleShipping (some sampleOrder)
        (.ok trDelivered) 100).shipping
      (refreshShippingTracking sampleShipping (some sampleOrder)
        (.ok trDelivered) 100).order
      (.ok trDelivered) 200).orderSaved = true :=
  ⟨rfl, rfl, rfl, rfl⟩

/-- C1 (amended): in the canonical controller, starting from a
not-yet-delivered shipment and an existing not-yet-delivered order, any
non-empty sequence of delivered-reporting operations — automated
refreshes, manual status edits, or manual tracking-event insertions, in
any mix — assigns `deliveredDate` exactly once (the first operation sets
it to its own timestamp and every later operation leaves it unchanged)
and performs the order collaborator's mark-order-delivered save exactly
once across the whole sequence.  The duplicated `refreshShippingTracking`
handler violates this (see the counterexample). -/
theorem c1_delivery_idempotent (sh : Shipping) (o : Order) (op : AdminOp)
    (t0 : ℚ) (rest : List (AdminOp × ℚ))
    (hd : sh.deliveredDate = none) (hs : sh.status ≠ "delivered")
    (ho : o.status ≠ "delivered")
    (hop : reportsDelivered sh.carrier op)
    (hrest : ∀ p ∈ rest, reportsDelivered sh.carrier p.1) :
    (stepOp ⟨sh, some o, 0⟩ op t0).shipping.deliveredDate = some t0 ∧
    (stepOp ⟨sh, some o, 0⟩ op t0).orderSaves = 1 ∧
    (runOps (stepOp ⟨sh, some o, 0⟩ op t0)
      rest).shipping.deliveredDate = some t0 ∧
    (runOps (stepOp ⟨sh, some o, 0⟩ op t0) rest).orderSaves = 1 := by
  have hfirst := stepOp_first ⟨sh, some o, 0⟩ o op t0 rfl hd hs ho hop
  have hrun := runOps_stable sh.carrier t0 rest
    (stepOp ⟨sh, some o, 0⟩ op t0) hfirst.1 hrest
  exact ⟨hfirst.2.2, hfirst.2.1, hrun.1.2.2.1,
    by rw [hrun.2, hfirst.2.1]⟩

/-- C1 (witness): from the freshly created sample shipment and a shipped
order, a delivered refresh at time 100 followed by a delivered manual
edit, a delivered manual event insertion and another delivered refresh
leaves `deliveredDate = 100` and exactly one order save. -/
theorem c1_witness :
    (stepOp ⟨sampleShipping, some sampleOrder, 0⟩
      (.refresh (.ok trDelivered)) 100).shipping.deliveredDate =
      some 100 ∧
    (stepOp ⟨sampleShipping, some sampleOrder, 0⟩
      (.refresh (.ok trDelivered)) 100).orderSaves = 1 ∧
    (runOps (stepOp ⟨sampleShipping, some sampleOrder, 0⟩
      (.refresh (.ok trDelivered)) 100)
      [(.statusEdit "delivered" none, 200),
       (.insertEvent "包裹已签收" none (some "delivered"), 300),
       (.refresh (.ok trDelivered), 400)]).shipping.deliveredDate =
      some 100 ∧
    (runOps (stepOp ⟨sampleShipping, some sampleOrder, 0⟩
      (.refresh (.ok trDelivered)) 100)
      [(.statusEdit "delivered" none, 200),
       (.insertEvent "包裹已签收" none (some "delivered"), 300),
       (.refresh (.ok trDelivered), 400)]).orderSaves = 1 :=
  c1_delivery_idempotent sampleShipping sampleOrder
    (.refresh (.ok trDelivered)) 100
    [(.statusEdit "delivered" none, 200),
     (.insertEvent "包裹已签收" none (some "delivered"), 300),
     (.refresh (.ok trDelivered), 400)]
    rfl (by decide) (by decide) ⟨trDelivered, rfl, rfl⟩
    (by
      intro p hp
      simp only [List.mem_cons, List.not_mem_nil, or_false] at hp
      rcases hp with rfl | rfl | rfl
      · rfl
      · exact ⟨"delivered", rfl, by decide, by decide⟩
      · exact ⟨trDelivered, rfl, rfl⟩)
